import Mathlib

/-!
Shallow embedding of the wpa_supplicant control-interface client
(`wpasupplicant.go`): the `Conn` data model, the transaction layer
(`sendRequest`, `sendRequestOk`, `checkReplyOk`, `Close`) and the command
facade built on them.  The Unix-datagram socket is modelled as an oracle
(`Socket`) giving the outcome of each `Write`/`Read`/`Close` call, and the
sequence of datagrams handed to `Write` is threaded explicitly as a `log`
so that theorems can speak about which requests an operation issues.
Go's two-value returns `(value, error)` become pairs with `Option GoError`;
`syscall.EINVAL` and `fmt.Errorf` become the two `GoError` constructors.
-/

namespace Wpasupplicant

/-- A Go `error` value as the client produces them: `syscall.EINVAL`
or a `fmt.Errorf`-formatted message. -/
inductive GoError where
  | einval
  | errorf (msg : String)
deriving DecidableEq

/-- The message text of an error (Go `err.Error()`). -/
def GoError.text : GoError → String
  | .einval => "invalid argument"
  | .errorf s => s

/-- Go `fmt`'s `%v` of an `error` interface value: `<nil>` for nil. -/
def errValText : Option GoError → String
  | none => "<nil>"
  | some e => e.text

/-- Oracle for the connected Unix-datagram socket (`*net.UnixConn`):
the outcome of `Write` (bytes written, error), the outcome of the single
`Read` that follows a given request datagram (the received slice
`reply[:n]`, which the 4096-byte buffer bounds, or a read error), and the
outcome of `Close`. -/
structure Socket where
  writeResult : String → Nat × Option GoError
  readResult : String → Except GoError String
  closeResult : Option GoError

/-- Go `type Conn struct \x7b uconn *net.UnixConn; localSock string \x7d`.
A nil `uconn` pointer is `none`; a nil `*Conn` receiver is modelled by
passing `none : Option Conn` to the methods. -/
structure Conn where
  uconn : Option Socket
  localSock : String

/-- Go `func (c *Conn) ok() bool \x7b return c != nil && c.uconn != nil \x7d`. -/
def ok : Option Conn → Bool
  | none => false
  | some c => c.uconn.isSome

/-- Go `KeyFormat` is a named integer type (`type KeyFormat int`). -/
abbrev KeyFormat := Int

/-- Go constant `KeyASCII KeyFormat = iota` (value 0). -/
def KeyASCII : KeyFormat := 0

/-- Go constant `KeyHex KeyFormat = iota` (value 1). -/
def KeyHex : KeyFormat := 1

/-- Go `func (c *Conn) sendRequest(msg string) (reply []byte, err error)`:
fail with `EINVAL` unless `c.ok()`; write the message as one datagram
(logging it), failing if the write errors or is short; then read one
reply datagram.  The two `none` branches are exactly the `!c.ok()` guard. -/
def sendRequest (c : Option Conn) (msg : String) (log : List String) :
    Except GoError String × List String :=
  match c with
  | none => (.error .einval, log)
  | some conn =>
    match conn.uconn with
    | none => (.error .einval, log)
    | some sock =>
      let log' := log ++ [msg]
      let wr := sock.writeResult msg
      if wr.2.isSome ∨ wr.1 ≠ msg.length then
        (.error (.errorf ("Error sending request: " ++ errValText wr.2)), log')
      else
        (sock.readResult msg, log')

/-- Go `checkReplyOk`: `nil` iff the reply is exactly `"OK\n"`, otherwise
`fmt.Errorf("%v", string(reply))` whose message is the raw reply text. -/
def checkReplyOk (reply : String) : Option GoError :=
  if reply = "OK\n" then none else some (.errorf reply)

/-- Go `func (c *Conn) sendRequestOk(msg string) error`. -/
def sendRequestOk (c : Option Conn) (msg : String) (log : List String) :
    Option GoError × List String :=
  match sendRequest c msg log with
  | (.error e, log') => (some e, log')
  | (.ok reply, log') => (checkReplyOk reply, log')

/-- Decode of `reply, err` into Go's `return string(reply), err` shape. -/
def rawReply : Except GoError String → String × Option GoError
  | .error e => ("", some e)
  | .ok r => (r, none)

/-- Go `strings.Count(reply, "\n")`: the pattern is a single character, so
the count of non-overlapping occurrences is the number of `'\n'` bytes. -/
def countNL (s : String) : Nat :=
  s.data.count '\n'

/-- Whitespace recognised by Go's `unicode.IsSpace` restricted to Latin-1
(`strings.TrimSpace` on the ASCII protocol replies never sees more): space,
`\t`, `\n`, vertical tab, form feed, `\r`, NEL and NBSP. -/
def goIsSpace (ch : Char) : Bool :=
  ch = ' ' ∨ ch = '\t' ∨ ch = '\n' ∨ ch = '\x0b' ∨ ch = '\x0c' ∨ ch = '\r' ∨
    ch = '\x85' ∨ ch = '\xa0'

/-- Go `strings.TrimSpace`: drop leading and trailing white space. -/
def trimSpace (s : String) : String :=
  ⟨((s.data.dropWhile goIsSpace).reverse.dropWhile goIsSpace).reverse⟩

/-- Decimal value of a digit list (most significant first). -/
def digitsVal (cs : List Char) : Nat :=
  cs.foldl (fun acc ch => acc * 10 + (ch.toNat - '0'.toNat)) 0

/-- Go `strconv.Atoi`: optional sign then decimal digits.  A syntax error
returns value 0 with an error; a value outside the 64-bit `int` range is
clamped with a range error; otherwise the value with nil error. -/
def atoi (s : String) : Int × Option GoError :=
  let parts : Bool × List Char :=
    match s.data with
    | '+' :: rest => (false, rest)
    | '-' :: rest => (true, rest)
    | rest => (false, rest)
  if parts.2.isEmpty ∨ ¬ parts.2.all Char.isDigit then
    (0, some (.errorf ("strconv.Atoi: parsing \"" ++ s ++ "\": invalid syntax")))
  else
    let n : Int := if parts.1 then -(digitsVal parts.2 : Int) else (digitsVal parts.2 : Int)
    if n < -(2 ^ 63) then
      (-(2 ^ 63), some (.errorf ("strconv.Atoi: parsing \"" ++ s ++ "\": value out of range")))
    else if n > 2 ^ 63 - 1 then
      (2 ^ 63 - 1, some (.errorf ("strconv.Atoi: parsing \"" ++ s ++ "\": value out of range")))
    else
      (n, none)

/-- Go `os.Remove(path)` over a file-system modelled as the list of
existing paths: removing an absent path is an error, otherwise the path
is dropped. -/
def osRemove (path : String) (fs : List String) : Option GoError × List String :=
  if fs.contains path then
    (none, fs.filter (fun q => q != path))
  else
    (some (.errorf ("remove " ++ path ++ ": no such file or directory")), fs)

/-- Outcome of `Conn.Close`: either a nil-pointer-dereference panic, or a
normal return carrying the returned error and the file system after the
`os.Remove`. -/
inductive CloseResult where
  | panicNilDeref
  | ret (err : Option GoError) (fs : List String)
deriving DecidableEq

/-- Go `func (c *Conn) Close() error`: if `c.ok()` close the socket, then
`os.Remove(c.localSock)` discarding its error, and return the socket-close
error.  On a nil `*Conn` the guard skips the socket close but the field
access `c.localSock` dereferences the nil pointer and panics. -/
def Close (c : Option Conn) (fs : List String) : CloseResult :=
  match c with
  | none => .panicNilDeref
  | some conn =>
    let err : Option GoError :=
      match conn.uconn with
      | some sock => sock.closeResult
      | none => none
    .ret err (osRemove conn.localSock fs).2

/-- Go `func (c *Conn) SetNetwork(id int, field, value string) error`:
`fmt.Sprintf("SET_NETWORK %v %v %v", id, field, value)` then expect OK. -/
def SetNetwork (c : Option Conn) (id : Int) (field value : String)
    (log : List String) : Option GoError × List String :=
  sendRequestOk c ("SET_NETWORK " ++ toString id ++ " " ++ field ++ " " ++ value) log

/-- Go `SetNetworkQuoted`: `SetNetwork` with the value wrapped in quotes. -/
def SetNetworkQuoted (c : Option Conn) (id : Int) (field value : String)
    (log : List String) : Option GoError × List String :=
  SetNetwork c id field ("\"" ++ value ++ "\"") log

/-- The `for i, value := range keys` loop of `SetNetworkWepKeys`, carried
out from index `i`: the `switch format` sends a quoted `SET_NETWORK` for
`KeyASCII`, an unquoted one for `KeyHex`, and nothing for any other value
(Go's `switch` with no `default` falls through to the next iteration);
any error aborts the loop. -/
def setWepKeysFrom (c : Option Conn) (id : Int) (format : KeyFormat) :
    Nat → List String → List String → Option GoError × List String
  | _, [], log => (none, log)
  | i, value :: rest, log =>
    if format = KeyASCII then
      match SetNetworkQuoted c id ("wep_key" ++ toString i) value log with
      | (some e, log') => (some e, log')
      | (none, log') => setWepKeysFrom c id format (i + 1) rest log'
    else if format = KeyHex then
      match SetNetwork c id ("wep_key" ++ toString i) value log with
      | (some e, log') => (some e, log')
      | (none, log') => setWepKeysFrom c id format (i + 1) rest log'
    else
      setWepKeysFrom c id format (i + 1) rest log

/-- Go `func (c *Conn) SetNetworkWepKeys(id int, format KeyFormat, keys []string) error`. -/
def SetNetworkWepKeys (c : Option Conn) (id : Int) (format : KeyFormat)
    (keys : List String) (log : List String) : Option GoError × List String :=
  setWepKeysFrom c id format 0 keys log

/-- Go `GetNetwork`: send `GET_NETWORK <id> <field>`; on error return
`("", err)`, otherwise the raw reply text. -/
def GetNetwork (c : Option Conn) (id : Int) (field : String)
    (log : List String) : (String × Option GoError) × List String :=
  match sendRequest c ("GET_NETWORK " ++ toString id ++ " " ++ field) log with
  | (.error e, log') => (("", some e), log')
  | (.ok reply, log') => ((reply, none), log')

/-- Go `AddNetwork`: send `ADD_NETWORK`; on transaction error return
`(-1, err)`; otherwise `strconv.Atoi(strings.TrimSpace(string(reply)))`. -/
def AddNetwork (c : Option Conn) (log : List String) :
    (Int × Option GoError) × List String :=
  match sendRequest c "ADD_NETWORK" log with
  | (.error e, log') => ((-1, some e), log')
  | (.ok reply, log') => (atoi (trimSpace reply), log')

/-- Go `RemoveNetwork`. -/
def RemoveNetwork (c : Option Conn) (id : Int) (log : List String) :
    Option GoError × List String :=
  sendRequestOk c ("REMOVE_NETWORK " ++ toString id) log

/-- Go `RemoveAllNetworks`. -/
def RemoveAllNetworks (c : Option Conn) (log : List String) :
    Option GoError × List String :=
  sendRequestOk c "REMOVE_NETWORK all" log

/-- Go `SetGlobalParameter`. -/
def SetGlobalParameter (c : Option Conn) (field value : String)
    (log : List String) : Option GoError × List String :=
  sendRequestOk c ("SET " ++ field ++ " " ++ value) log

/-- Go `SelectNetwork`. -/
def SelectNetwork (c : Option Conn) (id : Int) (log : List String) :
    Option GoError × List String :=
  sendRequestOk c ("SELECT_NETWORK " ++ toString id) log

/-- Go `EnableNetwork`. -/
def EnableNetwork (c : Option Conn) (id : Int) (log : List String) :
    Option GoError × List String :=
  sendRequestOk c ("ENABLE_NETWORK " ++ toString id) log

/-- Go `EnableAllNetworks`. -/
def EnableAllNetworks (c : Option Conn) (log : List String) :
    Option GoError × List String :=
  sendRequestOk c "ENABLE_NETWORK all" log

/-- Go `DisableNetwork`. -/
def DisableNetwork (c : Option Conn) (id : Int) (log : List String) :
    Option GoError × List String :=
  sendRequestOk c ("DISABLE_NETWORK " ++ toString id) log

/-- Go `DisableAllNetworks`. -/
def DisableAllNetworks (c : Option Conn) (log : List String) :
    Option GoError × List String :=
  sendRequestOk c "DISABLE_NETWORK all" log

/-- Go `Reassociate`. -/
def Reassociate (c : Option Conn) (log : List String) :
    Option GoError × List String :=
  sendRequestOk c "REASSOCIATE" log

/-- Go `Reconnect`. -/
def Reconnect (c : Option Conn) (log : List String) :
    Option GoError × List String :=
  sendRequestOk c "RECONNECT" log

/-- Go `ListNetworks`: send `LIST_NETWORKS`, return the raw reply text. -/
def ListNetworks (c : Option Conn) (log : List String) :
    (String × Option GoError) × List String :=
  match sendRequest c "LIST_NETWORKS" log with
  | (res, log') => (rawReply res, log')

/-- Go `NumOfNetworks`: on `ListNetworks` error return `(0, err)`;
otherwise `strings.Count(reply, "\n") - 1`, the header line excluded. -/
def NumOfNetworks (c : Option Conn) (log : List String) :
    (Int × Option GoError) × List String :=
  match ListNetworks c log with
  | ((_, some e), log') => ((0, some e), log')
  | ((reply, none), log') => (((countNL reply : Int) - 1, none), log')

/-- Go `Reconfigure`. -/
def Reconfigure (c : Option Conn) (log : List String) :
    Option GoError × List String :=
  sendRequestOk c "RECONFIGURE" log

/-- Go `Status`. -/
def Status (c : Option Conn) (log : List String) :
    (String × Option GoError) × List String :=
  match sendRequest c "STATUS" log with
  | (res, log') => (rawReply res, log')

/-- Go `StatusVerbose`. -/
def StatusVerbose (c : Option Conn) (log : List String) :
    (String × Option GoError) × List String :=
  match sendRequest c "STATUS-VERBOSE" log with
  | (res, log') => (rawReply res, log')

/-- Go `Ping`: send `PING`; nil iff the reply is exactly `"PONG\n"`,
otherwise an error carrying the raw reply text. -/
def Ping (c : Option Conn) (log : List String) :
    Option GoError × List String :=
  match sendRequest c "PING" log with
  | (.error e, log') => (some e, log')
  | (.ok reply, log') =>
    if reply = "PONG\n" then (none, log')
    else (some (.errorf ("Received unexpected reply: " ++ reply)), log')

/-- Go `SaveConfig`. -/
def SaveConfig (c : Option Conn) (log : List String) :
    Option GoError × List String :=
  sendRequestOk c "SAVE_CONFIG" log

/-- Go `Interfaces`. -/
def Interfaces (c : Option Conn) (log : List String) :
    (String × Option GoError) × List String :=
  match sendRequest c "INTERFACES" log with
  | (res, log') => (rawReply res, log')

/-- Go `Ifname`. -/
def Ifname (c : Option Conn) (log : List String) :
    (String × Option GoError) × List String :=
  match sendRequest c "IFNAME" log with
  | (res, log') => (rawReply res, log')

/-- Go `BSS`. -/
def BSS (c : Option Conn) (id : Int) (log : List String) :
    (String × Option GoError) × List String :=
  match sendRequest c ("BSS " ++ toString id) log with
  | (res, log') => (rawReply res, log')

/-- The request datagram `SetNetworkWepKeys` sends for key index `i` with
value `k` in ASCII format: `SET_NETWORK <id> wep_key<i> "<k>"`. -/
def wepReq (id : Int) (i : Nat) (k : String) : String :=
  "SET_NETWORK " ++ toString id ++ " " ++ ("wep_key" ++ toString i) ++ " " ++
    ("\"" ++ k ++ "\"")

/-- A socket whose close reports a failure, to exercise the error path. -/
def failCloseSocket : Socket :=
  Socket.mk (fun msg => (msg.length, none)) (fun _ => .ok "OK\n")
    (some (.errorf "close failed"))

/-- A socket whose writes all succeed in full and whose every read
returns the fixed reply `r`; closing succeeds. -/
def constSocket (r : String) : Socket :=
  Socket.mk (fun msg => (msg.length, none)) (fun _ => .ok r) none

/-- A connection wrapping the given socket, with a fixed endpoint path. -/
def testConn (s : Socket) : Conn :=
  Conn.mk (some s) "/tmp/wpa_supplicant_test"

/-- Concatenation of a list of strings. -/
def joinAll : List String → String
  | [] => ""
  | s :: rest => s ++ joinAll rest

/-- The strings of `ls`, each terminated by a newline, concatenated:
the shape of a `LIST_NETWORKS` reply whose lines are `ls`. -/
def joinLines (ls : List String) : String :=
  joinAll (ls.map (fun l => l ++ "\n"))

/-- On an invalid connection the `!c.ok()` guard fires: `sendRequest`
returns `EINVAL` without writing anything. -/
theorem sendRequest_not_ok (c : Option Conn) (msg : String) (log : List String)
    (h : ok c = false) : sendRequest c msg log = (.error .einval, log) := by
  match c with
  | none => rfl
  | some conn =>
    match hu : conn.uconn with
    | none => simp only [sendRequest, hu]
    | some sock => simp [ok, hu] at h

/-- On an invalid connection `sendRequestOk` returns `EINVAL` and writes
nothing. -/
theorem sendRequestOk_not_ok (c : Option Conn) (msg : String) (log : List String)
    (h : ok c = false) : sendRequestOk c msg log = (some .einval, log) := by
  unfold sendRequestOk
  rw [sendRequest_not_ok c msg log h]

/-- When the connection is live and the write succeeds in full,
`sendRequest` logs the datagram and returns the read outcome. -/
theorem sendRequest_write_ok (conn : Conn) (sock : Socket) (msg : String)
    (log : List String) (hc : conn.uconn = some sock)
    (hw : sock.writeResult msg = (msg.length, none)) :
    sendRequest (some conn) msg log = (sock.readResult msg, log ++ [msg]) := by
  simp only [sendRequest, hc, hw]
  simp

/-- A successful transaction through `sendRequestOk` reduces to
`checkReplyOk` of the received reply, with the request logged. -/
theorem sendRequestOk_write_read (conn : Conn) (sock : Socket) (msg r : String)
    (log : List String) (hc : conn.uconn = some sock)
    (hw : sock.writeResult msg = (msg.length, none))
    (hr : sock.readResult msg = .ok r) :
    sendRequestOk (some conn) msg log = (checkReplyOk r, log ++ [msg]) := by
  unfold sendRequestOk
  rw [sendRequest_write_ok conn sock msg log hc hw, hr]

/-- Newline counting distributes over string append. -/
theorem countNL_append (s t : String) : countNL (s ++ t) = countNL s + countNL t := by
  cases s with
  | mk a =>
    cases t with
    | mk b =>
      show (String.mk (a ++ b)).data.count '\n' = _
      simp [countNL, List.count_append]

/-- A `LIST_NETWORKS`-shaped reply built from newline-free lines has one
newline per line. -/
theorem countNL_joinLines (ls : List String) (h : ∀ l ∈ ls, countNL l = 0) :
    countNL (joinLines ls) = ls.length := by
  induction ls with
  | nil => rfl
  | cons l rest ih =>
    have hl : countNL l = 0 := h l (List.mem_cons_self l rest)
    have hrest : ∀ x ∈ rest, countNL x = 0 := fun x hx => h x (List.mem_cons_of_mem l hx)
    show countNL ((l ++ "\n") ++ joinLines rest) = rest.length + 1
    rw [countNL_append, countNL_append, hl, ih hrest]
    simp [countNL]
    omega

/-- A successful `ADD_NETWORK` transaction returns `Atoi` of the trimmed
reply, with the request logged. -/
theorem addNetwork_write_read (conn : Conn) (sock : Socket) (log : List String)
    (r : String) (hc : conn.uconn = some sock)
    (hw : sock.writeResult "ADD_NETWORK" = ("ADD_NETWORK".length, none))
    (hr : sock.readResult "ADD_NETWORK" = .ok r) :
    AddNetwork (some conn) log = (atoi (trimSpace r), log ++ ["ADD_NETWORK"]) := by
  unfold AddNetwork
  rw [sendRequest_write_ok conn sock "ADD_NETWORK" log hc hw, hr]

/-- A successful `LIST_NETWORKS` transaction makes `NumOfNetworks` return
the newline count of the reply minus one. -/
theorem numOfNetworks_write_read (conn : Conn) (sock : Socket) (log : List String)
    (r : String) (hc : conn.uconn = some sock)
    (hw : sock.writeResult "LIST_NETWORKS" = ("LIST_NETWORKS".length, none))
    (hr : sock.readResult "LIST_NETWORKS" = .ok r) :
    NumOfNetworks (some conn) log
      = (((countNL r : Int) - 1, none), log ++ ["LIST_NETWORKS"]) := by
  unfold NumOfNetworks ListNetworks
  rw [sendRequest_write_ok conn sock "LIST_NETWORKS" log hc hw, hr]
  rfl

/-- A successful `PING` transaction reduces `Ping` to the reply check. -/
theorem ping_write_read (conn : Conn) (sock : Socket) (log : List String)
    (r : String) (hc : conn.uconn = some sock)
    (hw : sock.writeResult "PING" = ("PING".length, none))
    (hr : sock.readResult "PING" = .ok r) :
    Ping (some conn) log
      = if r = "PONG\n" then (none, log ++ ["PING"])
        else (some (.errorf ("Received unexpected reply: " ++ r)), log ++ ["PING"]) := by
  unfold Ping
  rw [sendRequest_write_ok conn sock "PING" log hc hw, hr]

/-- The WEP-key loop with a format matching no `switch` case sends
nothing and returns nil. -/
theorem setWepKeysFrom_unknown (c : Option Conn) (id : Int) (format : KeyFormat)
    (h0 : format ≠ KeyASCII) (h1 : format ≠ KeyHex) :
    ∀ (i : Nat) (keys log : List String),
      setWepKeysFrom c id format i keys log = (none, log) := by
  intro i keys
  induction keys generalizing i with
  | nil => intro log; rfl
  | cons k rest ih =>
    intro log
    rw [setWepKeysFrom, if_neg h0, if_neg h1]
    exact ih (i + 1) log

/-- C1: for every reply the daemon delivers, `sendRequestOk` returns no
error iff the reply is exactly the 3 bytes `OK\n`; any other reply yields
an error whose message text is the raw reply text. -/
theorem sendRequestOk_ok_iff_reply_is_OK
    (conn : Conn) (sock : Socket) (msg r : String) (log : List String)
    (hc : conn.uconn = some sock)
    (hw : sock.writeResult msg = (msg.length, none))
    (hr : sock.readResult msg = .ok r) :
    ((sendRequestOk (some conn) msg log).1 = none ↔ r = "OK\n") ∧
      (r ≠ "OK\n" →
        (sendRequestOk (some conn) msg log).1 = some (GoError.errorf r) ∧
          GoError.text (GoError.errorf r) = r) := by
  rw [sendRequestOk_write_read conn sock msg r log hc hw hr]
  constructor
  · constructor
    · intro hnone
      by_contra hne
      simp [checkReplyOk, hne] at hnone
    · intro he
      simp [checkReplyOk, he]
  · intro hne
    exact ⟨by simp [checkReplyOk, hne], rfl⟩

/-- Witness for C1 at the reply `FAIL\n`. -/
theorem sendRequestOk_ok_iff_reply_is_OK_witness :
    ((sendRequestOk (some (testConn (constSocket "FAIL\n"))) "SAVE_CONFIG" []).1 = none ↔
        "FAIL\n" = "OK\n") ∧
      ("FAIL\n" ≠ "OK\n" →
        (sendRequestOk (some (testConn (constSocket "FAIL\n"))) "SAVE_CONFIG" []).1
            = some (GoError.errorf "FAIL\n") ∧
          GoError.text (GoError.errorf "FAIL\n") = "FAIL\n") :=
  sendRequestOk_ok_iff_reply_is_OK (testConn (constSocket "FAIL\n"))
    (constSocket "FAIL\n") "SAVE_CONFIG" "FAIL\n" [] rfl rfl rfl

/-- C2 counterexample: on the non-numeric reply `x\n` the code returns
id 0 together with the parse error, not id -1 as claimed (Go's
`strconv.Atoi` returns value 0 on a syntax error, and `AddNetwork`
passes that pair through; -1 appears only on a transaction failure). -/
theorem addNetwork_nonnumeric_counterexample :
    (AddNetwork (some (testConn (constSocket "x\n"))) []).1
        = (0, some (GoError.errorf "strconv.Atoi: parsing \"x\": invalid syntax")) ∧
      ((AddNetwork (some (testConn (constSocket "x\n"))) []).1).1 ≠ -1 :=
  ⟨by decide, by decide⟩

/-- C2 amended: given a successful transaction, `AddNetwork` returns
`Atoi` of the whitespace-trimmed reply — so reply `5\n` yields id 5 with
no error, while a reply that does not parse yields the parse error with
id 0 (not -1); id -1 is returned exactly when the transaction fails,
e.g. on an invalid connection. -/
theorem addNetwork_parse_behavior :
    (∀ (conn : Conn) (sock : Socket) (log : List String) (r : String),
        conn.uconn = some sock →
        sock.writeResult "ADD_NETWORK" = ("ADD_NETWORK".length, none) →
        sock.readResult "ADD_NETWORK" = .ok r →
        (AddNetwork (some conn) log).1 = atoi (trimSpace r)) ∧
      (∀ (conn : Conn) (sock : Socket) (log : List String),
        conn.uconn = some sock →
        sock.writeResult "ADD_NETWORK" = ("ADD_NETWORK".length, none) →
        sock.readResult "ADD_NETWORK" = .ok "5\n" →
        (AddNetwork (some conn) log).1 = (5, none)) ∧
      (∀ (conn : Conn) (sock : Socket) (log : List String),
        conn.uconn = some sock →
        sock.writeResult "ADD_NETWORK" = ("ADD_NETWORK".length, none) →
        sock.readResult "ADD_NETWORK" = .ok "x\n" →
        (AddNetwork (some conn) log).1
          = (0, some (GoError.errorf "strconv.Atoi: parsing \"x\": invalid syntax"))) ∧
      (∀ log, (AddNetwork none log).1 = (-1, some GoError.einval)) := by
  refine ⟨?_, ?_, ?_, ?_⟩
  · intro conn sock log r hc hw hr
    rw [addNetwork_write_read conn sock log r hc hw hr]
  · intro conn sock log hc hw hr
    rw [addNetwork_write_read conn sock log "5\n" hc hw hr]
    show atoi (trimSpace "5\n") = (5, none)
    decide
  · intro conn sock log hc hw hr
    rw [addNetwork_write_read conn sock log "x\n" hc hw hr]
    show atoi (trimSpace "x\n")
        = (0, some (GoError.errorf "strconv.Atoi: parsing \"x\": invalid syntax"))
    decide
  · intro log
    rfl

/-- Witness for C2 at the replies `7\n`, `5\n`, `x\n` and the nil
connection. -/
theorem addNetwork_parse_behavior_witness :
    (AddNetwork (some (testConn (constSocket "7\n"))) []).1 = atoi (trimSpace "7\n") ∧
      (AddNetwork (some (testConn (constSocket "5\n"))) []).1 = (5, none) ∧
      (AddNetwork (some (testConn (constSocket "x\n"))) []).1
        = (0, some (GoError.errorf "strconv.Atoi: parsing \"x\": invalid syntax")) ∧
      (AddNetwork none []).1 = (-1, some GoError.einval) :=
  ⟨addNetwork_parse_behavior.1 (testConn (constSocket "7\n")) (constSocket "7\n")
      [] "7\n" rfl rfl rfl,
    addNetwork_parse_behavior.2.1 (testConn (constSocket "5\n")) (constSocket "5\n")
      [] rfl rfl rfl,
    addNetwork_parse_behavior.2.2.1 (testConn (constSocket "x\n")) (constSocket "x\n")
      [] rfl rfl rfl,
    addNetwork_parse_behavior.2.2.2 []⟩

/-- C3: on a `LIST_NETWORKS` reply made of one header line plus N data
lines, each terminated by a newline and containing none internally,
`NumOfNetworks` returns N with no error: the count is the number of
newline characters minus one for the header. -/
theorem numOfNetworks_header_plus_data_lines
    (conn : Conn) (sock : Socket) (log : List String)
    (header : String) (lines : List String)
    (hc : conn.uconn = some sock)
    (hw : sock.writeResult "LIST_NETWORKS" = ("LIST_NETWORKS".length, none))
    (hr : sock.readResult "LIST_NETWORKS" = .ok (joinLines (header :: lines)))
    (hnl : ∀ l ∈ header :: lines, countNL l = 0) :
    (NumOfNetworks (some conn) log).1 = ((lines.length : Int), none) := by
  rw [numOfNetworks_write_read conn sock log (joinLines (header :: lines)) hc hw hr]
  show ((countNL (joinLines (header :: lines)) : Int) - 1, none) = _
  rw [countNL_joinLines (header :: lines) hnl]
  simp

/-- Witness for C3: a header plus two data lines gives count 2. -/
theorem numOfNetworks_header_plus_data_lines_witness :
    (NumOfNetworks
        (some (testConn (constSocket
          (joinLines ["network id / ssid / bssid / flags", "0\tfoo", "1\tbar"])))) []).1
      = ((2 : Int), none) :=
  numOfNetworks_header_plus_data_lines
    (testConn (constSocket (joinLines ["network id / ssid / bssid / flags", "0\tfoo", "1\tbar"])))
    (constSocket (joinLines ["network id / ssid / bssid / flags", "0\tfoo", "1\tbar"]))
    [] "network id / ssid / bssid / flags" ["0\tfoo", "1\tbar"] rfl rfl rfl
    (by decide)

/-- C5: for every reply the daemon delivers, `Ping` returns no error iff
the reply is exactly `PONG\n`; any other reply yields an error whose
message contains the raw reply text (it is the fixed prefix
`Received unexpected reply: ` followed by the reply). -/
theorem ping_ok_iff_pong
    (conn : Conn) (sock : Socket) (log : List String) (r : String)
    (hc : conn.uconn = some sock)
    (hw : sock.writeResult "PING" = ("PING".length, none))
    (hr : sock.readResult "PING" = .ok r) :
    ((Ping (some conn) log).1 = none ↔ r = "PONG\n") ∧
      (r ≠ "PONG\n" →
        (Ping (some conn) log).1
            = some (GoError.errorf ("Received unexpected reply: " ++ r)) ∧
          GoError.text (GoError.errorf ("Received unexpected reply: " ++ r))
            = "Received unexpected reply: " ++ r) := by
  rw [ping_write_read conn sock log r hc hw hr]
  by_cases hp : r = "PONG\n"
  · simp [hp]
  · simp [hp, GoError.text]

/-- Witness for C5 at the reply `FAIL\n`. -/
theorem ping_ok_iff_pong_witness :
    ((Ping (some (testConn (constSocket "FAIL\n"))) []).1 = none ↔
        "FAIL\n" = "PONG\n") ∧
      ("FAIL\n" ≠ "PONG\n" →
        (Ping (some (testConn (constSocket "FAIL\n"))) []).1
            = some (GoError.errorf ("Received unexpected reply: " ++ "FAIL\n")) ∧
          GoError.text (GoError.errorf ("Received unexpected reply: " ++ "FAIL\n"))
            = "Received unexpected reply: " ++ "FAIL\n") :=
  ping_ok_iff_pong (testConn (constSocket "FAIL\n")) (constSocket "FAIL\n")
    [] "FAIL\n" rfl rfl rfl

/-- C9: a `KeyFormat` value matching neither `KeyASCII` nor `KeyHex`
makes `SetNetworkWepKeys` issue no request at all and return no error,
for any connection, id and key list: the `switch` has no `default`
case, so unrecognized formats are silently skipped. -/
theorem wepkeys_unknown_format_noop (c : Option Conn) (id : Int)
    (format : KeyFormat) (keys log : List String)
    (h0 : format ≠ KeyASCII) (h1 : format ≠ KeyHex) :
    SetNetworkWepKeys c id format keys log = (none, log) :=
  setWepKeysFrom_unknown c id format h0 h1 0 keys log

/-- Witness for C9 at format value 2 with two keys. -/
theorem wepkeys_unknown_format_noop_witness :
    SetNetworkWepKeys (some (testConn (constSocket "OK\n"))) 4 2 ["a", "b"] []
      = (none, []) :=
  wepkeys_unknown_format_noop (some (testConn (constSocket "OK\n"))) 4 2 ["a", "b"] []
    (by decide) (by decide)

/-- C10: when the `LIST_NETWORKS` transaction succeeds but the reply
contains no newline character (e.g. an empty reply), `NumOfNetworks`
returns -1 with no error: the header-line subtraction drives the count
negative. -/
theorem numOfNetworks_no_newline_neg_one
    (conn : Conn) (sock : Socket) (log : List String) (r : String)
    (hc : conn.uconn = some sock)
    (hw : sock.writeResult "LIST_NETWORKS" = ("LIST_NETWORKS".length, none))
    (hr : sock.readResult "LIST_NETWORKS" = .ok r)
    (hnl : countNL r = 0) :
    (NumOfNetworks (some conn) log).1 = ((-1 : Int), none) := by
  rw [numOfNetworks_write_read conn sock log r hc hw hr]
  show ((countNL r : Int) - 1, none) = _
  rw [hnl]
  simp

/-- Witness for C10 at the empty reply. -/
theorem numOfNetworks_no_newline_neg_one_witness :
    (NumOfNetworks (some (testConn (constSocket ""))) []).1 = ((-1 : Int), none) :=
  numOfNetworks_no_newline_neg_one (testConn (constSocket "")) (constSocket "")
    [] "" rfl rfl rfl rfl

/-- Step equation of the WEP-key loop in the ASCII case. -/
theorem setWepKeysFrom_ascii_cons (c : Option Conn) (id : Int) (i : Nat)
    (k : String) (rest log : List String) :
    setWepKeysFrom c id KeyASCII i (k :: rest) log
      = match SetNetworkQuoted c id ("wep_key" ++ toString i) k log with
        | (some e, log') => (some e, log')
        | (none, log') => setWepKeysFrom c id KeyASCII (i + 1) rest log' := rfl

/-- C4: with format ASCII and keys `[k0, k1]`, `SetNetworkWepKeys` issues
exactly the two requests `SET_NETWORK <id> wep_key0 "k0"` and
`SET_NETWORK <id> wep_key1 "k1"` in that order when both succeed; if the
first `SET_NETWORK` fails, no further request is issued and that first
error is returned. -/
theorem setNetworkWepKeys_ascii_two_keys (id : Int) (k0 k1 : String)
    (log : List String) :
    (∀ (conn : Conn) (sock : Socket),
        conn.uconn = some sock →
        sock.writeResult (wepReq id 0 k0) = ((wepReq id 0 k0).length, none) →
        sock.writeResult (wepReq id 1 k1) = ((wepReq id 1 k1).length, none) →
        sock.readResult (wepReq id 0 k0) = .ok "OK\n" →
        sock.readResult (wepReq id 1 k1) = .ok "OK\n" →
        SetNetworkWepKeys (some conn) id KeyASCII [k0, k1] log
          = (none, log ++ [wepReq id 0 k0, wepReq id 1 k1])) ∧
      (∀ (conn : Conn) (sock : Socket) (r : String),
        conn.uconn = some sock →
        sock.writeResult (wepReq id 0 k0) = ((wepReq id 0 k0).length, none) →
        sock.readResult (wepReq id 0 k0) = .ok r →
        r ≠ "OK\n" →
        SetNetworkWepKeys (some conn) id KeyASCII [k0, k1] log
          = (some (GoError.errorf r), log ++ [wepReq id 0 k0])) := by
  constructor
  · intro conn sock hc hw0 hw1 hr0 hr1
    have e0 : SetNetworkQuoted (some conn) id ("wep_key" ++ toString 0) k0 log
        = (none, log ++ [wepReq id 0 k0]) := by
      show sendRequestOk (some conn) (wepReq id 0 k0) log = _
      rw [sendRequestOk_write_read conn sock (wepReq id 0 k0) "OK\n" log hc hw0 hr0]
      simp [checkReplyOk]
    have e1 : SetNetworkQuoted (some conn) id ("wep_key" ++ toString 1) k1
          (log ++ [wepReq id 0 k0])
        = (none, (log ++ [wepReq id 0 k0]) ++ [wepReq id 1 k1]) := by
      show sendRequestOk (some conn) (wepReq id 1 k1) (log ++ [wepReq id 0 k0]) = _
      rw [sendRequestOk_write_read conn sock (wepReq id 1 k1) "OK\n"
        (log ++ [wepReq id 0 k0]) hc hw1 hr1]
      simp [checkReplyOk]
    show setWepKeysFrom (some conn) id KeyASCII 0 [k0, k1] log = _
    rw [setWepKeysFrom_ascii_cons, e0]
    show setWepKeysFrom (some conn) id KeyASCII 1 [k1] (log ++ [wepReq id 0 k0]) = _
    rw [setWepKeysFrom_ascii_cons, e1]
    show (none, (log ++ [wepReq id 0 k0]) ++ [wepReq id 1 k1]) = _
    simp
  · intro conn sock r hc hw0 hr0 hne
    have e0 : SetNetworkQuoted (some conn) id ("wep_key" ++ toString 0) k0 log
        = (some (GoError.errorf r), log ++ [wepReq id 0 k0]) := by
      show sendRequestOk (some conn) (wepReq id 0 k0) log = _
      rw [sendRequestOk_write_read conn sock (wepReq id 0 k0) r log hc hw0 hr0]
      simp [checkReplyOk, hne]
    show setWepKeysFrom (some conn) id KeyASCII 0 [k0, k1] log = _
    rw [setWepKeysFrom_ascii_cons, e0]

/-- Witness for C4 at id 3, keys `k0`, `k1`: both-succeed socket and a
first-request-fails socket. -/
theorem setNetworkWepKeys_ascii_two_keys_witness :
    SetNetworkWepKeys (some (testConn (constSocket "OK\n"))) 3 KeyASCII ["k0", "k1"] []
        = (none, [] ++ [wepReq 3 0 "k0", wepReq 3 1 "k1"]) ∧
      SetNetworkWepKeys (some (testConn (constSocket "FAIL\n"))) 3 KeyASCII ["k0", "k1"] []
        = (some (GoError.errorf "FAIL\n"), [] ++ [wepReq 3 0 "k0"]) :=
  ⟨(setNetworkWepKeys_ascii_two_keys 3 "k0" "k1" []).1
      (testConn (constSocket "OK\n")) (constSocket "OK\n") rfl rfl rfl rfl rfl,
    (setNetworkWepKeys_ascii_two_keys 3 "k0" "k1" []).2
      (testConn (constSocket "FAIL\n")) (constSocket "FAIL\n") "FAIL\n"
      rfl rfl rfl (by decide)⟩

/-- Step equation of the WEP-key loop in the Hex case. -/
theorem setWepKeysFrom_hex_cons (c : Option Conn) (id : Int) (i : Nat)
    (k : String) (rest log : List String) :
    setWepKeysFrom c id KeyHex i (k :: rest) log
      = match SetNetwork c id ("wep_key" ++ toString i) k log with
        | (some e, log') => (some e, log')
        | (none, log') => setWepKeysFrom c id KeyHex (i + 1) rest log' := rfl

/-- On an invalid connection the WEP-key loop with ASCII format aborts
on its first request with `EINVAL`, writing nothing. -/
theorem setWepKeysFrom_ascii_not_ok (c : Option Conn) (h : ok c = false) (id : Int)
    (i : Nat) (k : String) (rest log : List String) :
    setWepKeysFrom c id KeyASCII i (k :: rest) log = (some GoError.einval, log) := by
  rw [setWepKeysFrom_ascii_cons,
    show SetNetworkQuoted c id ("wep_key" ++ toString i) k log
        = (some GoError.einval, log) from sendRequestOk_not_ok c _ log h]

/-- On an invalid connection the WEP-key loop with Hex format aborts
on its first request with `EINVAL`, writing nothing. -/
theorem setWepKeysFrom_hex_not_ok (c : Option Conn) (h : ok c = false) (id : Int)
    (i : Nat) (k : String) (rest log : List String) :
    setWepKeysFrom c id KeyHex i (k :: rest) log = (some GoError.einval, log) := by
  rw [setWepKeysFrom_hex_cons,
    show SetNetwork c id ("wep_key" ++ toString i) k log
        = (some GoError.einval, log) from sendRequestOk_not_ok c _ log h]

/-- C6 amended: on a Connection whose socket was never established (nil
Connection or nil socket handle), every operation that issues a request
returns `EINVAL` and writes no datagram; `SetNetworkWepKeys` with an
empty key list, or with a format that is neither ASCII nor Hex, issues
no request either but returns nil rather than `EINVAL`.  No operation
panics. -/
theorem invalid_conn_ops_einval (c : Option Conn) (msg field value : String)
    (id : Int) (format : KeyFormat) (k : String) (keys log : List String)
    (h : ok c = false) (hfmt0 : format ≠ KeyASCII) (hfmt1 : format ≠ KeyHex) :
    sendRequest c msg log = (Except.error GoError.einval, log) ∧
      sendRequestOk c msg log = (some GoError.einval, log) ∧
      SetNetwork c id field value log = (some GoError.einval, log) ∧
      SetNetworkQuoted c id field value log
        = (some GoError.einval, log) ∧
      GetNetwork c id field log = (("", some GoError.einval), log) ∧
      AddNetwork c log = ((-1, some GoError.einval), log) ∧
      RemoveNetwork c id log = (some GoError.einval, log) ∧
      RemoveAllNetworks c log = (some GoError.einval, log) ∧
      SetGlobalParameter c field value log
        = (some GoError.einval, log) ∧
      SelectNetwork c id log = (some GoError.einval, log) ∧
      EnableNetwork c id log = (some GoError.einval, log) ∧
      EnableAllNetworks c log = (some GoError.einval, log) ∧
      DisableNetwork c id log = (some GoError.einval, log) ∧
      DisableAllNetworks c log = (some GoError.einval, log) ∧
      Reassociate c log = (some GoError.einval, log) ∧
      Reconnect c log = (some GoError.einval, log) ∧
      ListNetworks c log = (("", some GoError.einval), log) ∧
      NumOfNetworks c log = ((0, some GoError.einval), log) ∧
      Reconfigure c log = (some GoError.einval, log) ∧
      Status c log = (("", some GoError.einval), log) ∧
      StatusVerbose c log = (("", some GoError.einval), log) ∧
      Ping c log = (some GoError.einval, log) ∧
      SaveConfig c log = (some GoError.einval, log) ∧
      Interfaces c log = (("", some GoError.einval), log) ∧
      Ifname c log = (("", some GoError.einval), log) ∧
      BSS c id log = (("", some GoError.einval), log) ∧
      SetNetworkWepKeys c id KeyASCII (k :: keys) log
        = (some GoError.einval, log) ∧
      SetNetworkWepKeys c id KeyHex (k :: keys) log
        = (some GoError.einval, log) ∧
      SetNetworkWepKeys c id format (k :: keys) log = (none, log) ∧
      SetNetworkWepKeys c id format [] log = (none, log) ∧
      SetNetworkWepKeys c id KeyASCII [] log = (none, log) := by
  have hs : ∀ m l, sendRequest c m l = (Except.error GoError.einval, l) :=
    fun m l => sendRequest_not_ok c m l h
  have hso : ∀ m l, sendRequestOk c m l = (some GoError.einval, l) :=
    fun m l => sendRequestOk_not_ok c m l h
  refine ⟨hs msg log, hso msg log, hso _ log, hso _ log, ?_, ?_, hso _ log, hso _ log, hso
    _ log, hso _ log, hso _ log, hso _ log, hso _ log, hso _ log, hso _ log, hso _ log, ?_,
    ?_, hso _ log, ?_, ?_, ?_, hso _ log, ?_, ?_, ?_, ?_, ?_, ?_, rfl, rfl⟩
  · unfold GetNetwork
    rw [hs]
  · unfold AddNetwork
    rw [hs]
  · unfold ListNetworks
    rw [hs]
    rfl
  · unfold NumOfNetworks ListNetworks
    rw [hs]
    rfl
  · unfold Status
    rw [hs]
    rfl
  · unfold StatusVerbose
    rw [hs]
    rfl
  · unfold Ping
    rw [hs]
  · unfold Interfaces
    rw [hs]
    rfl
  · unfold Ifname
    rw [hs]
    rfl
  · unfold BSS
    rw [hs]
    rfl
  · exact setWepKeysFrom_ascii_not_ok c h id 0 k keys log
  · exact setWepKeysFrom_hex_not_ok c h id 0 k keys log
  · exact setWepKeysFrom_unknown c id format hfmt0 hfmt1 0 (k :: keys) log

/-- C6 counterexample: `SetNetworkWepKeys` with an empty key list is an
operation that, invoked on a nil Connection, returns no error at all —
not the claimed `EINVAL` (the per-key loop never runs, so the validity
check is never reached). -/
theorem invalid_conn_wepkeys_empty_counterexample :
    (SetNetworkWepKeys none 0 KeyASCII [] []).1 = none ∧
      (SetNetworkWepKeys none 0 KeyASCII [] []).1 ≠ some GoError.einval ∧
      ok none = false :=
  ⟨rfl, by decide, rfl⟩

/-- Witness for C6 at the nil Connection with concrete arguments. -/
theorem invalid_conn_ops_einval_witness :
    sendRequest none "PING" [] = (Except.error GoError.einval, []) ∧
      sendRequestOk none "PING" [] = (some GoError.einval, []) ∧
      SetNetwork none 0 "ssid" "foo" [] = (some GoError.einval, []) ∧
      SetNetworkQuoted none 0 "ssid" "foo" []
        = (some GoError.einval, []) ∧
      GetNetwork none 0 "ssid" [] = (("", some GoError.einval), []) ∧
      AddNetwork none [] = ((-1, some GoError.einval), []) ∧
      RemoveNetwork none 0 [] = (some GoError.einval, []) ∧
      RemoveAllNetworks none [] = (some GoError.einval, []) ∧
      SetGlobalParameter none "ssid" "foo" []
        = (some GoError.einval, []) ∧
      SelectNetwork none 0 [] = (some GoError.einval, []) ∧
      EnableNetwork none 0 [] = (some GoError.einval, []) ∧
      EnableAllNetworks none [] = (some GoError.einval, []) ∧
      DisableNetwork none 0 [] = (some GoError.einval, []) ∧
      DisableAllNetworks none [] = (some GoError.einval, []) ∧
      Reassociate none [] = (some GoError.einval, []) ∧
      Reconnect none [] = (some GoError.einval, []) ∧
      ListNetworks none [] = (("", some GoError.einval), []) ∧
      NumOfNetworks none [] = ((0, some GoError.einval), []) ∧
      Reconfigure none [] = (some GoError.einval, []) ∧
      Status none [] = (("", some GoError.einval), []) ∧
      StatusVerbose none [] = (("", some GoError.einval), []) ∧
      Ping none [] = (some GoError.einval, []) ∧
      SaveConfig none [] = (some GoError.einval, []) ∧
      Interfaces none [] = (("", some GoError.einval), []) ∧
      Ifname none [] = (("", some GoError.einval), []) ∧
      BSS none 0 [] = (("", some GoError.einval), []) ∧
      SetNetworkWepKeys none 0 KeyASCII ("k" :: []) []
        = (some GoError.einval, []) ∧
      SetNetworkWepKeys none 0 KeyHex ("k" :: []) []
        = (some GoError.einval, []) ∧
      SetNetworkWepKeys none 0 5 ("k" :: []) [] = (none, []) ∧
      SetNetworkWepKeys none 0 5 [] [] = (none, []) ∧
      SetNetworkWepKeys none 0 KeyASCII [] [] = (none, []) :=
  invalid_conn_ops_einval none "PING" "ssid" "foo" 0 5 "k" [] [] rfl
    (by decide) (by decide)

/-- C7 counterexample: `Close` on a nil Connection does not complete —
the `c.ok()` guard skips the socket close, but `os.Remove(c.localSock)`
dereferences the nil pointer and panics. -/
theorem close_nil_counterexample :
    Close none ["/tmp/wpa_supplicant_test"] = CloseResult.panicNilDeref := rfl

/-- C7 amended: `Close` on a non-nil Connection whose socket handle is
nil (already invalidated) is guarded by the validity check: it completes
without panicking, skips the socket close and returns nil; but `Close`
on a nil Connection panics with a nil dereference while removing the
endpoint file. -/
theorem close_invalidated_no_panic (conn : Conn) (fs : List String)
    (h : conn.uconn = none) :
    Close (some conn) fs = CloseResult.ret none ((osRemove conn.localSock fs).2) := by
  simp only [Close, h]

/-- Witness for C7 at a Connection with a nil socket handle. -/
theorem close_invalidated_no_panic_witness :
    Close (some (Conn.mk none "/tmp/wpa_x")) []
      = CloseResult.ret none ((osRemove (Conn.mk none "/tmp/wpa_x").localSock []).2) :=
  close_invalidated_no_panic (Conn.mk none "/tmp/wpa_x") [] rfl

/-- C8: on a valid Connection, `Close` always removes the local endpoint
file — whatever the socket-close outcome `sock.closeResult` is — and any
error from the removal is discarded: the value returned is exactly the
socket-close outcome, never a file-removal failure. -/
theorem close_removes_endpoint_file (conn : Conn) (sock : Socket) (fs : List String)
    (h : conn.uconn = some sock) :
    Close (some conn) fs
        = CloseResult.ret sock.closeResult ((osRemove conn.localSock fs).2) ∧
      conn.localSock ∉ (osRemove conn.localSock fs).2 := by
  constructor
  · simp only [Close, h]
  · unfold osRemove
    by_cases hm : conn.localSock ∈ fs
    · simp [hm, List.mem_filter]
    · simp [hm]

/-- Witness for C8 at a failing socket close with the endpoint file
present. -/
theorem close_removes_endpoint_file_witness :
    Close (some (Conn.mk (some failCloseSocket) "/tmp/wpa_y")) ["/tmp/wpa_y", "/etc/x"]
        = CloseResult.ret failCloseSocket.closeResult
          ((osRemove (Conn.mk (some failCloseSocket) "/tmp/wpa_y").localSock
            ["/tmp/wpa_y", "/etc/x"]).2) ∧
      (Conn.mk (some failCloseSocket) "/tmp/wpa_y").localSock ∉
        (osRemove (Conn.mk (some failCloseSocket) "/tmp/wpa_y").localSock
          ["/tmp/wpa_y", "/etc/x"]).2 :=
  close_removes_endpoint_file (Conn.mk (some failCloseSocket) "/tmp/wpa_y")
    failCloseSocket ["/tmp/wpa_y", "/etc/x"] rfl

end Wpasupplicant
